import Mathlib

/-!
Shallow embedding of the YggdrasilGo authentication/session server core,
translated from the Go sources (handlers/session.go, utils/cache_warmup.go,
the profile handler, the validation utilities, and the yggdrasil type
package), together with theorems settling the frozen claims about it.

Modelling conventions:
* Go `time.Time` / `time.Duration` values are `Int` nanoseconds.
* Machine randomness (token IDs, RSA key generation) is passed in as an
  explicit parameter.
* Collaborators that live outside the provided sources (the storage
  interface, the cache package, the HTTP response helpers, the JWT
  library) are modelled from the spec; each such definition carries a
  doc comment saying so.
-/

namespace Ygg

/-- One nanosecond-denominated second, Go's `time.Second`. -/
def second : Int := 1000000000

/-- JSON values, the observable payload of an HTTP response body. -/
inductive Json where
  | null : Json
  | str : String → Json
  | num : Int → Json
  | bool : Bool → Json
  | arr : List Json → Json
  | obj : List (String × Json) → Json

/-- An HTTP response as the handlers produce it: 204 no-content, a 200
JSON body, or the Yggdrasil error wire format with its status code. -/
inductive Response where
  | noContent : Response
  | json : Json → Response
  | error : Nat → String → String → Response

/-- Modelled from the spec: the response helpers (`RespondForbiddenOperation`
etc.) live in a utils file not present in the sources; spec section 6.2 gives
the error wire format `{error, errorMessage}` and the kinds. -/
def respondForbidden (msg : String) : Response :=
  Response.error 403 "ForbiddenOperationException" msg

/-- Modelled from the spec: `RespondInvalidToken` is not in the sources;
spec section 7 places expired/unknown tokens in the 403
ForbiddenOperationException class. -/
def respondInvalidToken : Response :=
  respondForbidden "Invalid token."

/-- Modelled from the spec: `RespondIllegalArgument` emits the 400
IllegalArgumentException wire error (spec sections 6.2 and 7). -/
def respondIllegalArgument (msg : String) : Response :=
  Response.error 400 "IllegalArgumentException" msg

/-! ### String-keyed association lists

The in-memory caches (session cache, response cache) and the file system
are modelled as association lists where an insert shadows older entries,
so a `set` overwrites observationally. The cache package itself is not in
the sources; spec section 4.4 fixes the store/get/delete contract
(store overwrites any prior entry under the same key). -/

/-- First-match lookup. -/
def alGet {α : Type} : List (String × α) → String → Option α
  | [], _ => none
  | (k, v) :: rest, key => if k = key then some v else alGet rest key

/-- Insert, shadowing (hence overwriting) any previous binding. -/
def alSet {α : Type} (c : List (String × α)) (key : String) (v : α) :
    List (String × α) :=
  (key, v) :: c

/-- Remove every binding of a key. -/
def alDel {α : Type} : List (String × α) → String → List (String × α)
  | [], _ => []
  | (k, v) :: rest, key =>
      if k = key then alDel rest key else (k, v) :: alDel rest key

/-! ### Data model (package yggdrasil) -/

/-- ProfileProperty from the yggdrasil type package; an empty `signature`
stands for the absent field (Go `json:"signature,omitempty"`). -/
structure ProfileProperty where
  name : String
  value : String
  signature : String
deriving DecidableEq, Repr

/-- Profile from the yggdrasil type package. -/
structure Profile where
  id : String
  name : String
  properties : List ProfileProperty
deriving DecidableEq, Repr

/-- User from the yggdrasil type package (password verifier omitted,
the claims never consult it). -/
structure User where
  id : String
  email : String
  profiles : List Profile
deriving DecidableEq, Repr

/-- JSON encoding of a property: `omitempty` drops the signature field
exactly when the signature string is empty. -/
def ProfileProperty.toJson (pr : ProfileProperty) : Json :=
  Json.obj ([("name", Json.str pr.name), ("value", Json.str pr.value)] ++
    (if pr.signature = "" then [] else [("signature", Json.str pr.signature)]))

/-- JSON encoding of a profile, field order as in the Go struct tags. -/
def Profile.toJson (p : Profile) : Json :=
  Json.obj [("id", Json.str p.id), ("name", Json.str p.name),
    ("properties", Json.arr (p.properties.map ProfileProperty.toJson))]

/-! ### JWT layer (utils) -/

/-- JWTClaims from utils: subject/user id, selected profile id, token id,
plus the registered claims GenerateJWT fills in. -/
structure JWTClaims where
  userID : String
  profileID : String
  tokenID : String
  issuer : String
  subject : String
  issuedAt : Int
  expiresAt : Int
deriving DecidableEq, Repr

/-- Signing algorithm recorded in a token's header. -/
inductive SigningMethod where
  | hs256 : SigningMethod
  | other : SigningMethod
deriving DecidableEq, Repr

/-- A compact JWT, abstracted from its string encoding: the claims it
carries, the algorithm of its header, and the key its signature was
produced with. -/
structure JWTToken where
  claims : JWTClaims
  method : SigningMethod
  key : String
deriving DecidableEq, Repr

/-- GenerateJWT from utils: mint an HS256 token under the configured
secret. The fresh token id (`GenerateRandomUUID`) and the current time
are explicit parameters. -/
def generateJWT (secret : String) (userID profileID : String)
    (expiration : Int) (now : Int) (tokenID : String) : JWTToken :=
  { claims :=
      { userID := userID
        profileID := profileID
        tokenID := tokenID
        issuer := "Yggdrasil-Auth"
        subject := userID
        issuedAt := now
        expiresAt := now + expiration }
    method := SigningMethod.hs256
    key := secret }

/-- ValidateJWT from utils: reject a non-HMAC header, verify the
signature against the configured secret, and let the jwt/v5 parser check
the registered expiry claim (valid strictly before `exp`). -/
def validateJWT (secret : String) (now : Int) (t : JWTToken) :
    Option JWTClaims :=
  if t.method = SigningMethod.hs256 ∧ t.key = secret ∧
      now < t.claims.expiresAt then
    some t.claims
  else
    none

/-! ### Sessions (package yggdrasil + handlers/session.go) -/

/-- Session from the yggdrasil type package. -/
structure Session where
  serverID : String
  accessToken : JWTToken
  profileID : String
  clientIP : String
  createdAt : Int
deriving DecidableEq, Repr

/-- Session.IsValid: `time.Since(s.CreatedAt) < 30*time.Second`. -/
def Session.isValidAt (s : Session) (now : Int) : Prop :=
  now - s.createdAt < 30 * second

instance (s : Session) (now : Int) : Decidable (s.isValidAt now) :=
  inferInstanceAs (Decidable (_ < _))

/-- The session cache keyed by serverId. -/
abbrev SessionCache := List (String × Session)

/-- JoinRequest from the yggdrasil type package; all three fields carry
a gin `binding:"required"` tag, so the handler only sees them nonempty. -/
structure JoinRequest where
  accessToken : JWTToken
  selectedProfile : String
  serverID : String

/-! ### Storage collaborator

Modelled from the spec: the storage interface is not among the provided
sources. Spec section 6.4 fixes the lookup surface
(`GetProfileByUUID`, `GetProfileByName`, `GetProfilesByNames`,
`GetSignatureKeyPair`, `GetPublicKey`), with profiles owned by users and
names unique. `batchFails` stands for an internal store failure. -/
structure Storage where
  users : List User
  batchFails : Bool
  storageType : String
  sigKeyPair : Except Unit (String × String)
  publicKeyRes : Except Unit String

/-- All profiles known to the store. -/
def Storage.profiles (st : Storage) : List Profile :=
  st.users.flatMap User.profiles

/-- GetProfileByName: resolve a profile by its display name. -/
def Storage.getProfileByName (st : Storage) (name : String) : Option Profile :=
  st.profiles.find? (fun p => decide (p.name = name))

/-- GetProfileByUUID: resolve a profile by its id. -/
def Storage.getProfileByUUID (st : Storage) (uuid : String) : Option Profile :=
  st.profiles.find? (fun p => decide (p.id = uuid))

/-- GetProfilesByNames: batch resolution, surfacing an internal error
when the store is failing. -/
def Storage.getProfilesByNames (st : Storage) (names : List String) :
    Except Unit (List Profile) :=
  if st.batchFails then Except.error () else
    Except.ok (names.filterMap st.getProfileByName)

/-- Does the user with the given id own a profile with the given name?
(The ownership predicate the C1 claim text speaks about.) -/
def Storage.userOwnsName (st : Storage) (userID name : String) : Bool :=
  match st.users.find? (fun u => decide (u.id = userID)) with
  | some u => u.profiles.any (fun p => decide (p.name = name))
  | none => false

/-! ### Session handlers (handlers/session.go) -/

/-- SessionHandler.Join: validate the JWT locally, check the selected
profile against the token's embedded profile id, then store a session
under the serverId with the request's client IP and the current time. -/
def joinHandler (secret : String) (now : Int) (clientIP : String)
    (cache : SessionCache) (req : JoinRequest) : Response × SessionCache :=
  match validateJWT secret now req.accessToken with
  | none => (respondInvalidToken, cache)
  | some claims =>
    if claims.profileID = "" ∨ claims.profileID ≠ req.selectedProfile then
      (respondForbidden "Selected profile does not match token", cache)
    else
      (Response.noContent,
        alSet cache req.serverID
          { serverID := req.serverID
            accessToken := req.accessToken
            profileID := claims.profileID
            clientIP := clientIP
            createdAt := now })

/-- SessionHandler.HasJoined: look the session up by serverId, treat a
missing or expired session as a 204 miss, resolve the profile by
username, check the optional ip parameter, then delete the session and
return the profile JSON. -/
def hasJoinedHandler (store : Storage) (now : Int) (cache : SessionCache)
    (username serverID ip : String) : Response × SessionCache :=
  if username = "" ∨ serverID = "" then
    (respondIllegalArgument "Missing required parameters", cache)
  else
    match alGet cache serverID with
    | none => (Response.noContent, cache)
    | some s =>
      if s.isValidAt now then
        match store.getProfileByName username with
        | none => (Response.noContent, cache)
        | some profile =>
          if ip ≠ "" ∧ s.clientIP ≠ ip then (Response.noContent, cache)
          else (Response.json profile.toJson, alDel cache serverID)
      else
        (Response.noContent, cache)

/-! ### Profile handlers (handlers/profile.go) -/

/-- Go `strconv.ParseBool`: the exact table of accepted literals. -/
def goParseBool (s : String) : Option Bool :=
  if s = "1" ∨ s = "t" ∨ s = "T" ∨ s = "TRUE" ∨ s = "true" ∨ s = "True" then
    some true
  else if s = "0" ∨ s = "f" ∨ s = "F" ∨ s = "FALSE" ∨ s = "false" ∨ s = "False" then
    some false
  else
    none

/-- Blank every property signature, the handler's `unsigned` branch. -/
def stripSignatures (p : Profile) : Profile :=
  { p with properties := p.properties.map (fun pr => { pr with signature := "" }) }

/-- ProfileHandler.GetProfileByUUID: `unsigned` defaults to true and is
only replaced by a query value `strconv.ParseBool` accepts; a missing
profile is a 204 miss; the unsigned variant blanks each signature. -/
def getProfileByUUIDHandler (store : Storage) (uuid : String)
    (unsignedParam : String) : Response :=
  if uuid = "" then respondIllegalArgument "Missing UUID parameter"
  else
    let unsigned : Bool :=
      if unsignedParam ≠ "" then
        match goParseBool unsignedParam with
        | some b => b
        | none => true
      else true
    match store.getProfileByUUID uuid with
    | none => Response.noContent
    | some profile =>
      Response.json (Profile.toJson (if unsigned then stripSignatures profile else profile))

/-- The simplified `{id, name}` entry of the batch response. -/
def profileEntryJson (p : Profile) : Json :=
  Json.obj [("id", Json.str p.id), ("name", Json.str p.name)]

/-- ProfileHandler.SearchMultipleProfiles: reject more than 10 names
before touching the store, map a store failure to a 500, and otherwise
answer with the (possibly empty, never null) `{id,name}` array. The
second component records whether the store was queried. -/
def searchMultipleProfiles (store : Storage) (names : List String) :
    Response × Bool :=
  if names.length > 10 then
    (respondForbidden "Too many profiles requested", false)
  else
    match store.getProfilesByNames names with
    | Except.error _ =>
        (Response.error 500 "InternalServerError" "Failed to query profiles", true)
    | Except.ok profiles =>
        (Response.json (Json.arr (profiles.map profileEntryJson)), true)

/-! ### Validation utilities (utils/validation.go) -/

/-- The white space characters `strings.TrimSpace` removes (ASCII part). -/
def goIsSpace (c : Char) : Bool :=
  c = ' ' ∨ c = '\t' ∨ c = '\n' ∨ c = '\r'

/-- `strings.TrimSpace`, on the ASCII fragment the validators accept. -/
def goTrimSpace (s : String) : String :=
  String.mk (((s.data.dropWhile goIsSpace).reverse.dropWhile goIsSpace).reverse)

/-- SanitizeInput: trim surrounding white space, then truncate to 255. -/
def sanitizeInput (input : String) : String :=
  let t := goTrimSpace input
  if t.length > 255 then String.mk (t.data.take 255) else t

/-- IsEmailFormat: `strings.Contains(input, "@")`. -/
def isEmailFormat (s : String) : Bool :=
  s.data.contains '@'

/-- Character class `[a-zA-Z0-9._%+-]` of the email regex local part. -/
def isEmailLocalChar (c : Char) : Bool :=
  c.isAlpha ∨ c.isDigit ∨ c = '.' ∨ c = '_' ∨ c = '%' ∨ c = '+' ∨ c = '-'

/-- Character class `[a-zA-Z0-9.-]` of the email regex domain part. -/
def isEmailDomainChar (c : Char) : Bool :=
  c.isAlpha ∨ c.isDigit ∨ c = '.' ∨ c = '-'

/-- The `\.[a-zA-Z]{2,}` tail: at least two letters. -/
def isTLDTail (t : List Char) : Bool :=
  decide (2 ≤ t.length) && t.all Char.isAlpha

/-- The anchored suffix `[a-zA-Z0-9.-]+\.[a-zA-Z]{2,}$` after the `@`:
all characters in class, and some dot at position ≥ 1 whose remainder is
an alphabetic tail of length ≥ 2. -/
def emailDomainMatch (r : List Char) : Bool :=
  r.all isEmailDomainChar &&
    (List.range r.length).any (fun i =>
      decide (1 ≤ i) && decide (r.getD i ' ' = '.') && isTLDTail (r.drop (i + 1)))

/-- The anchored email regex
`^[a-zA-Z0-9._%+-]+@[a-zA-Z0-9.-]+\.[a-zA-Z]{2,}$`; neither class
contains `@`, so a match splits uniquely at the first `@`. -/
def emailRegexMatch (s : String) : Bool :=
  let l := s.data.takeWhile (fun c => decide (c ≠ '@'))
  match s.data.dropWhile (fun c => decide (c ≠ '@')) with
  | '@' :: r => decide (0 < l.length) && l.all isEmailLocalChar && emailDomainMatch r
  | _ => false

/-- IsValidEmail: the RFC 5321 length cap, then the regex. -/
def isValidEmail (s : String) : Bool :=
  if s.length > 254 then false else emailRegexMatch s

/-- The player name regex `^[a-zA-Z0-9_]{3,16}$` character class. -/
def isPlayerNameChar (c : Char) : Bool :=
  c.isAlpha ∨ c.isDigit ∨ c = '_'

/-- IsValidPlayerName: the anchored `^[a-zA-Z0-9_]{3,16}$` regex. -/
def isValidPlayerName (s : String) : Bool :=
  decide (3 ≤ s.length) && decide (s.length ≤ 16) && s.data.all isPlayerNameChar

/-- ValidateLoginInput: sanitize both inputs, reject empties, reject an
over-long password, then validate the username as email or player name. -/
def validateLoginInput (username password : String) : Bool :=
  let u := sanitizeInput username
  let p := sanitizeInput password
  if u = "" ∨ p = "" then false
  else if p.length > 255 then false
  else if isEmailFormat u then isValidEmail u
  else isValidPlayerName u

/-! ### Key material (utils/crypto.go) -/

/-- The DER encodings `x509.MarshalPKCS8PrivateKey` /
`x509.MarshalPKIXPublicKey` produce, abstracted over the raw RSA key,
which is identified by the generation seed. -/
inductive KeyDER where
  | pkcs8 : Nat → KeyDER
  | pkix : Nat → KeyDER
deriving DecidableEq, Repr

/-- Injective rendering of a DER blob into file content. -/
def KeyDER.render : KeyDER → String
  | KeyDER.pkcs8 k => "PKCS8:" ++ toString k
  | KeyDER.pkix k => "PKIX:" ++ toString k

/-- `pem.EncodeToMemory` of a block with the given type and body. -/
def pemEncodeToMemory (blockType : String) (der : KeyDER) : String :=
  "-----BEGIN " ++ blockType ++ "-----\n" ++ der.render ++
    "\n-----END " ++ blockType ++ "-----\n"

/-- GenerateRSAKeyPair: a fresh 4096-bit key (its randomness is the
`freshKey` parameter), the private half PKCS#8 in a `PRIVATE KEY` PEM
block, the public half PKIX in a `PUBLIC KEY` PEM block. -/
def generateRSAKeyPair (freshKey : Nat) : String × String :=
  (pemEncodeToMemory "PRIVATE KEY" (KeyDER.pkcs8 freshKey),
   pemEncodeToMemory "PUBLIC KEY" (KeyDER.pkix freshKey))

/-- A file: its content and its permission bits. -/
structure FileEntry where
  content : String
  mode : Nat
deriving DecidableEq, Repr

/-- The file system visible to the key loader. -/
abbrev FS := List (String × FileEntry)

/-- `fileExists` via `os.Stat`. -/
def fsStat (fs : FS) (path : String) : Bool :=
  (alGet fs path).isSome

/-- `os.ReadFile`, failing on a missing path. -/
def fsReadE (fs : FS) (path : String) : Except Unit String :=
  match alGet fs path with
  | some e => Except.ok e.content
  | none => Except.error ()

/-- saveKeyToFile: `os.WriteFile(filename, key, 0600)` (directory
creation has no observable effect here). -/
def saveKeyToFile (fs : FS) (filename key : String) : FS :=
  alSet fs filename { content := key, mode := 0o600 }

/-- LoadOrGenerateKeyPair: load both files when both exist, otherwise
generate a fresh pair and save both, returning the pair in use together
with the resulting file system. -/
def loadOrGenerateKeyPair (freshKey : Nat) (fs : FS)
    (privateKeyPath publicKeyPath : String) : String × String × FS :=
  if fsStat fs privateKeyPath && fsStat fs publicKeyPath then
    (match fsReadE fs privateKeyPath, fsReadE fs publicKeyPath with
     | Except.ok priv, Except.ok pub => (priv, pub, fs)
     | _, _ => ("", "", fs))
  else
    let pair := generateRSAKeyPair freshKey
    let fs1 := saveKeyToFile fs privateKeyPath pair.1
    let fs2 := saveKeyToFile fs1 publicKeyPath pair.2
    (pair.1, pair.2, fs2)

/-! ### API metadata and the response cache
(utils/cache_warmup.go, handlers/meta.go) -/

/-- MetaInfo from the yggdrasil type package. -/
structure MetaInfo where
  serverName : String
  implementationName : String
  implementationVersion : String
  links : List (String × String)
  featureNonEmailLogin : Bool
deriving DecidableEq, Repr

/-- APIMetadata from the yggdrasil type package. -/
structure APIMetadata where
  meta : MetaInfo
  skinDomains : List String
  signaturePublicKey : String
deriving DecidableEq, Repr

/-- Serialization of MetaInfo, field order as in the Go struct tags.
`FastMarshal` is deterministic, so byte identity of responses is
equality of these values. -/
def MetaInfo.toJson (m : MetaInfo) : Json :=
  Json.obj [("serverName", Json.str m.serverName),
    ("implementationName", Json.str m.implementationName),
    ("implementationVersion", Json.str m.implementationVersion),
    ("links", Json.obj (m.links.map (fun kv => (kv.1, Json.str kv.2)))),
    ("feature.non_email_login", Json.bool m.featureNonEmailLogin)]

/-- Serialization of APIMetadata. -/
def APIMetadata.toJson (a : APIMetadata) : Json :=
  Json.obj [("meta", a.meta.toJson),
    ("skinDomains", Json.arr (a.skinDomains.map Json.str)),
    ("signaturePublickey", Json.str a.signaturePublicKey)]

/-- The slice of the configuration the metadata paths read. Modelled
from the spec: the config package is not among the sources; section 4.7
fixes it as (server identity, link templates, skin domains, feature
flags, key paths). `GetLinkURL` is passed in as `linkURL`. -/
structure Config where
  serverHost : String
  serverPort : Nat
  metaLinks : List String
  serverName : String
  implementationName : String
  implementationVersion : String
  skinDomains : List String
  nonEmailLogin : Bool
  publicKeyPath : String

/-- The link-building block shared verbatim by `warmupAPIMetadata` and
`MetaHandler.GetAPIMetadata`: substitute the host into every configured
link, then add the homepage and register defaults when absent. -/
def buildLinks (metaLinks : List String)
    (linkURL : String → String → String) (host : String) :
    List (String × String) :=
  let links := metaLinks.map (fun key => (key, linkURL key host))
  let links :=
    if (alGet links "homepage").isSome then links
    else links ++ [("homepage", linkURL "homepage" host)]
  if (alGet links "register").isSome then links
  else links ++ [("register", linkURL "register" host)]

/-- The metadata value both paths assemble for a host and a public key. -/
def buildMetadata (cfg : Config) (linkURL : String → String → String)
    (host publicKey : String) : APIMetadata :=
  { meta :=
      { serverName := cfg.serverName
        implementationName := cfg.implementationName
        implementationVersion := cfg.implementationVersion
        links := buildLinks cfg.metaLinks linkURL host
        featureNonEmailLogin := cfg.nonEmailLogin }
    skinDomains := cfg.skinDomains
    signaturePublicKey := publicKey }

/-- The response cache: serialized bodies keyed by cache key. -/
abbrev RespCache := List (String × Json)

/-- The hosts `warmupAPIMetadata` precomputes entries for. -/
def commonHosts (cfg : Config) : List String :=
  ["localhost:8080", "127.0.0.1:8080",
    cfg.serverHost ++ ":" ++ toString cfg.serverPort]

/-- The warmup path's public key source: `GetSignatureKeyPair` for the
blessing_skin store, otherwise `loadPublicKey` from the configured file. -/
def warmupKeySource (cfg : Config) (store : Storage) (fs : FS) :
    Except Unit String :=
  if store.storageType = "blessing_skin" then
    store.sigKeyPair.map (fun kp => kp.2)
  else
    fsReadE fs cfg.publicKeyPath

/-- warmupAPIMetadata: for each common host, build the links and the
metadata; a failing key source degrades to an empty public key and the
entry is cached regardless. -/
def warmupAPIMetadata (cfg : Config) (linkURL : String → String → String)
    (store : Storage) (fs : FS) (rc : RespCache) : RespCache :=
  (commonHosts cfg).foldl
    (fun acc host =>
      let publicKey :=
        match warmupKeySource cfg store fs with
        | Except.ok k => k
        | Except.error _ => ""
      alSet acc ("api_metadata_" ++ host)
        (buildMetadata cfg linkURL host publicKey).toJson)
    rc

/-- The cold path's public key source, `MetaHandler.loadPublicKey`:
`GetPublicKey` for the blessing_skin store, otherwise the configured
file. -/
def coldKeySource (cfg : Config) (store : Storage) (fs : FS) :
    Except Unit String :=
  if store.storageType = "blessing_skin" then store.publicKeyRes
  else fsReadE fs cfg.publicKeyPath

/-- MetaHandler.GetAPIMetadata: serve the cached body when present;
otherwise build the metadata for the request host (the Host header
falls back to the request host) and fail with a 500 when the public key
cannot be loaded; on success cache and serve the body. -/
def getAPIMetadata (cfg : Config) (linkURL : String → String → String)
    (store : Storage) (fs : FS) (rc : RespCache)
    (requestHost hostHeader : String) : Response × RespCache :=
  let cacheKey := "api_metadata_" ++ requestHost
  match alGet rc cacheKey with
  | some cached => (Response.json cached, rc)
  | none =>
    let host := if hostHeader = "" then requestHost else hostHeader
    match coldKeySource cfg store fs with
    | Except.error _ =>
        (Response.error 500 "InternalServerError" "Failed to load public key", rc)
    | Except.ok publicKey =>
        let md := buildMetadata cfg linkURL host publicKey
        (Response.json md.toJson, alSet rc cacheKey md.toJson)

/-! ### Concrete instances used by counterexamples and witnesses -/

/-- A concrete HMAC secret. -/
def cxSecret : String := "hmac-secret"

/-- A token minted for user `userA` with selected profile `a1` at time 0,
valid for 15 minutes. -/
def cxTokenA : JWTToken :=
  generateJWT cxSecret "userA" "a1" (900 * second) 0 "tid-1"

/-- Profile `Alice`, owned by `userA`. -/
def cxProfileAlice : Profile := { id := "a1", name := "Alice", properties := [] }

/-- Profile `Bob`, owned by `userB`, with a signed textures property. -/
def cxProfileBob : Profile :=
  { id := "b1", name := "Bob"
    properties := [{ name := "textures", value := "dGV4dHVyZXM", signature := "c2lnbmF0dXJl" }] }

/-- A store with two users owning one profile each. -/
def cxStore : Storage :=
  { users :=
      [{ id := "userA", email := "a@example.com", profiles := [cxProfileAlice] },
       { id := "userB", email := "b@example.com", profiles := [cxProfileBob] }]
    batchFails := false
    storageType := "database"
    sigKeyPair := Except.error ()
    publicKeyRes := Except.error () }

/-- `userA` joining server `srv-1` with its own selected profile. -/
def cxJoinReq : JoinRequest :=
  { accessToken := cxTokenA, selectedProfile := "a1", serverID := "srv-1" }

/-- The session cache produced by that join at time 0 from IP 1.2.3.4. -/
def cxCacheAfterJoin : SessionCache :=
  (joinHandler cxSecret 0 "1.2.3.4" [] cxJoinReq).2

/-- A concrete configuration for the metadata paths. -/
def cxCfg : Config :=
  { serverHost := "example.com", serverPort := 9000
    metaLinks := [], serverName := "NanCity"
    implementationName := "yggdrasil-api-go", implementationVersion := "1.0"
    skinDomains := ["skins.example.com"], nonEmailLogin := true
    publicKeyPath := "keys/public.pem" }

/-- A concrete link template substitution. -/
def cxLinkURL (key host : String) : String :=
  "https://" ++ host ++ "/" ++ key

/-- A blessing_skin store whose key material cannot be loaded. -/
def cxBadStore : Storage :=
  { users := [], batchFails := false, storageType := "blessing_skin"
    sigKeyPair := Except.error (), publicKeyRes := Except.error () }

/-- The cache produced by warmup against the failing store. -/
def cxWarmRC : RespCache :=
  warmupAPIMetadata cxCfg cxLinkURL cxBadStore [] []

/-- Eleven names none of which the store resolves. -/
def cx11Names : List String :=
  ["n01", "n02", "n03", "n04", "n05", "n06", "n07", "n08", "n09", "n10", "n11"]

/-- A 256-character password. -/
def overlongPassword : String := String.mk (List.replicate 256 'a')

/-! ## Theorems

Helper lemmas first, then one theorem per claim (with its witness or
counterexample). -/

/-- Looking up the key just set yields the new value. -/
theorem alGet_alSet_self {α : Type} (c : List (String × α)) (k : String) (v : α) :
    alGet (alSet c k v) k = some v := by
  simp [alGet, alSet]

/-- Setting one key leaves every other key's binding unchanged. -/
theorem alGet_alSet_ne {α : Type} (c : List (String × α)) (k k2 : String)
    (v : α) (h : k ≠ k2) :
    alGet (alSet c k v) k2 = alGet c k2 := by
  simp [alGet, alSet, h]

/-- A deleted key has no binding. -/
theorem alGet_alDel_self {α : Type} (c : List (String × α)) (k : String) :
    alGet (alDel c k) k = none := by
  induction c with
  | nil => rfl
  | cons e rest ih =>
    obtain ⟨k1, v1⟩ := e
    by_cases h : k1 = k
    · simpa [alDel, h] using ih
    · simp [alDel, h, alGet, ih]

/-- Evaluation of HasJoined on a cache hit. -/
theorem hasJoined_eval (store : Storage) (now : Int) (cache : SessionCache)
    (username sid ip : String) (s : Session)
    (hu : username ≠ "") (hs : sid ≠ "") (hget : alGet cache sid = some s) :
    hasJoinedHandler store now cache username sid ip
      = if s.isValidAt now then
          match store.getProfileByName username with
          | none => (Response.noContent, cache)
          | some profile =>
            if ip ≠ "" ∧ s.clientIP ≠ ip then (Response.noContent, cache)
            else (Response.json profile.toJson, alDel cache sid)
        else (Response.noContent, cache) := by
  unfold hasJoinedHandler
  rw [if_neg (not_or.mpr ⟨hu, hs⟩), hget]

/-- Evaluation of HasJoined on a cache miss. -/
theorem hasJoined_miss (store : Storage) (now : Int) (cache : SessionCache)
    (username sid ip : String)
    (hu : username ≠ "") (hs : sid ≠ "") (hget : alGet cache sid = none) :
    hasJoinedHandler store now cache username sid ip
      = (Response.noContent, cache) := by
  unfold hasJoinedHandler
  rw [if_neg (not_or.mpr ⟨hu, hs⟩), hget]

/-- C3: minting then validating round-trips: a token produced by
GenerateJWT is accepted by ValidateJWT when checked before its expiry,
and the returned claims carry exactly the minted user-ID and
profile-ID. -/
theorem mint_then_validate (secret uid pid tid : String)
    (expiration now checkTime : Int)
    (_hpos : 0 < expiration) (hbefore : checkTime < now + expiration) :
    validateJWT secret checkTime (generateJWT secret uid pid expiration now tid)
      = some { userID := uid, profileID := pid, tokenID := tid,
               issuer := "Yggdrasil-Auth", subject := uid,
               issuedAt := now, expiresAt := now + expiration } := by
  simp [validateJWT, generateJWT, hbefore]

/-- C3 witness: a token minted at time 0 for 15 minutes validates at
time 7ns with its original user and profile. -/
theorem mint_then_validate_witness :
    validateJWT "k" 7 (generateJWT "k" "u1" "p1" (900 * second) 0 "t1")
      = some { userID := "u1", profileID := "p1", tokenID := "t1",
               issuer := "Yggdrasil-Auth", subject := "u1",
               issuedAt := 0, expiresAt := 0 + 900 * second } :=
  mint_then_validate "k" "u1" "p1" "t1" (900 * second) 0 7 (by decide) (by decide)

/-- C2: Join accepts exactly the requests whose token validates and
whose embedded profile-ID equals the selected profile; acceptance stores
a session keyed by the serverId with creation time now, overwriting any
prior binding and leaving other keys alone, and answers 204; rejection
answers 403 ForbiddenOperationException and leaves the cache unchanged. -/
theorem join_verifies_and_stores (secret : String) (now : Int)
    (clientIP : String) (cache : SessionCache) (tok : JWTToken)
    (sel sid : String) (hsel : sel ≠ "") :
    (∀ claims, validateJWT secret now tok = some claims → claims.profileID = sel →
        (joinHandler secret now clientIP cache
            { accessToken := tok, selectedProfile := sel, serverID := sid }).1
          = Response.noContent
      ∧ alGet (joinHandler secret now clientIP cache
            { accessToken := tok, selectedProfile := sel, serverID := sid }).2 sid
          = some { serverID := sid, accessToken := tok, profileID := sel,
                   clientIP := clientIP, createdAt := now }
      ∧ ∀ k, sid ≠ k →
          alGet (joinHandler secret now clientIP cache
              { accessToken := tok, selectedProfile := sel, serverID := sid }).2 k
            = alGet cache k)
    ∧ (validateJWT secret now tok = none →
        joinHandler secret now clientIP cache
            { accessToken := tok, selectedProfile := sel, serverID := sid }
          = (respondForbidden "Invalid token.", cache))
    ∧ (∀ claims, validateJWT secret now tok = some claims → claims.profileID ≠ sel →
        joinHandler secret now clientIP cache
            { accessToken := tok, selectedProfile := sel, serverID := sid }
          = (respondForbidden "Selected profile does not match token", cache)) := by
  refine ⟨?_, ?_, ?_⟩
  · intro claims hv hpid
    have heval : joinHandler secret now clientIP cache
        { accessToken := tok, selectedProfile := sel, serverID := sid }
        = (Response.noContent,
            alSet cache sid
              { serverID := sid, accessToken := tok, profileID := claims.profileID,
                clientIP := clientIP, createdAt := now }) := by
      unfold joinHandler
      simp only [hv]
      rw [if_neg]
      intro hor
      rcases hor with h | h
      · exact hsel (hpid ▸ h)
      · exact h hpid
    rw [heval, hpid]
    exact ⟨rfl, alGet_alSet_self cache sid _, fun k hk => alGet_alSet_ne cache sid k _ hk⟩
  · intro hv
    unfold joinHandler
    simp only [hv]
    rfl
  · intro claims hv hne
    unfold joinHandler
    simp only [hv]
    rw [if_pos (Or.inr hne)]

/-- C2 witness: a concrete valid join stores its session and returns
204. -/
theorem join_verifies_and_stores_witness :
    (joinHandler cxSecret 0 "1.2.3.4" [] cxJoinReq).1 = Response.noContent
    ∧ alGet (joinHandler cxSecret 0 "1.2.3.4" [] cxJoinReq).2 "srv-1"
        = some { serverID := "srv-1", accessToken := cxTokenA, profileID := "a1",
                 clientIP := "1.2.3.4", createdAt := 0 } := by
  have h := (join_verifies_and_stores cxSecret 0 "1.2.3.4" [] cxTokenA "a1" "srv-1"
      (by decide)).1 cxTokenA.claims rfl rfl
  exact ⟨h.1, h.2.1⟩

/-- C1 (amended): after a successful join under serverId, hasJoined
returns a non-204 response iff some profile named username exists in the
store (the handler performs no ownership check against the session's
user), the session is strictly less than 30 seconds old, and ip, when
supplied, equals the client IP stored at join time; on a hit the
response is the stored profile's JSON and the session is deleted, so a
second hasJoined for the same serverId returns 204. -/
theorem hasJoined_after_join
    (store : Storage) (secret : String) (cache cache2 : SessionCache)
    (tok : JWTToken) (sel sid ip0 : String) (t0 now : Int)
    (username ip : String)
    (hJoin : joinHandler secret t0 ip0 cache
        { accessToken := tok, selectedProfile := sel, serverID := sid }
        = (Response.noContent, cache2))
    (hu : username ≠ "") (hs : sid ≠ "") :
    (((hasJoinedHandler store now cache2 username sid ip).1 ≠ Response.noContent)
      ↔ ((store.getProfileByName username).isSome ∧ now - t0 < 30 * second
          ∧ (ip = "" ∨ ip0 = ip)))
    ∧ (∀ p, store.getProfileByName username = some p →
        now - t0 < 30 * second → (ip = "" ∨ ip0 = ip) →
        hasJoinedHandler store now cache2 username sid ip
          = (Response.json p.toJson, alDel cache2 sid))
    ∧ (∀ now2 un2 ip2, un2 ≠ "" →
        (hasJoinedHandler store now2 (alDel cache2 sid) un2 sid ip2).1
          = Response.noContent) := by
  obtain ⟨pid, hc2⟩ : ∃ pid, cache2 = alSet cache sid
      { serverID := sid, accessToken := tok, profileID := pid,
        clientIP := ip0, createdAt := t0 } := by
    unfold joinHandler at hJoin
    split at hJoin
    · exact Response.noConfusion (congrArg Prod.fst hJoin)
    · split at hJoin
      · exact Response.noConfusion (congrArg Prod.fst hJoin)
      · exact ⟨_, (congrArg Prod.snd hJoin).symm⟩
  subst hc2
  have hget : alGet (alSet cache sid
      { serverID := sid, accessToken := tok, profileID := pid,
        clientIP := ip0, createdAt := t0 }) sid
      = some { serverID := sid, accessToken := tok, profileID := pid,
               clientIP := ip0, createdAt := t0 } :=
    alGet_alSet_self cache sid _
  have he := hasJoined_eval store now (alSet cache sid
      { serverID := sid, accessToken := tok, profileID := pid,
        clientIP := ip0, createdAt := t0 }) username sid ip _ hu hs hget
  refine ⟨?_, ?_, ?_⟩
  · rw [he]
    by_cases hage : now - t0 < 30 * second
    · rw [if_pos (show Session.isValidAt
        { serverID := sid, accessToken := tok, profileID := pid,
          clientIP := ip0, createdAt := t0 } now from hage)]
      cases hp : store.getProfileByName username with
      | none => simp [hage]
      | some p =>
        by_cases hip : ip = "" ∨ ip0 = ip
        · have hcond : ¬(ip ≠ "" ∧
              ({ serverID := sid, accessToken := tok, profileID := pid,
                 clientIP := ip0, createdAt := t0 } : Session).clientIP ≠ ip) := by
            rcases hip with h | h
            · exact fun hc => hc.1 h
            · exact fun hc => hc.2 h
          simp only [if_neg hcond]
          simp [hage, hip]
        · have hcond : ip ≠ "" ∧
              ({ serverID := sid, accessToken := tok, profileID := pid,
                 clientIP := ip0, createdAt := t0 } : Session).clientIP ≠ ip := by
            constructor
            · exact fun h => hip (Or.inl h)
            · exact fun h => hip (Or.inr h)
          simp only [if_pos hcond]
          simp [hage, hip]
    · rw [if_neg (show ¬Session.isValidAt
        { serverID := sid, accessToken := tok, profileID := pid,
          clientIP := ip0, createdAt := t0 } now from hage)]
      simp [hage]
  · intro p hp hage hip
    have hcond : ¬(ip ≠ "" ∧
        ({ serverID := sid, accessToken := tok, profileID := pid,
           clientIP := ip0, createdAt := t0 } : Session).clientIP ≠ ip) := by
      rcases hip with h | h
      · exact fun hc => hc.1 h
      · exact fun hc => hc.2 h
    rw [he, if_pos (show Session.isValidAt
        { serverID := sid, accessToken := tok, profileID := pid,
          clientIP := ip0, createdAt := t0 } now from hage), hp]
    simp only [if_neg hcond]
  · intro now2 un2 ip2 hun2
    have := hasJoined_miss store now2 (alDel (alSet cache sid
      { serverID := sid, accessToken := tok, profileID := pid,
        clientIP := ip0, createdAt := t0 }) sid)
      un2 sid ip2 hun2 hs (alGet_alDel_self _ sid)
    rw [this]

/-- C1 witness: the concrete join of userA followed, 5 seconds later, by
a hasJoined for the name of a profile the store resolves, succeeds with
that profile and deletes the session. -/
theorem hasJoined_after_join_witness :
    hasJoinedHandler cxStore (5 * second) cxCacheAfterJoin "Alice" "srv-1" ""
      = (Response.json cxProfileAlice.toJson, alDel cxCacheAfterJoin "srv-1") := by
  have h := hasJoined_after_join cxStore cxSecret [] cxCacheAfterJoin cxTokenA
    "a1" "srv-1" "1.2.3.4" 0 (5 * second) "Alice" "" rfl (by decide) (by decide)
  exact h.2.1 cxProfileAlice rfl (by decide) (Or.inl rfl)

/-- C1 counterexample: the claim as stated is false on the code in two
ways. First, hasJoined performs no ownership check: after userA's join,
a hasJoined for "Bob" — a name owned by userB, not by the session's
owner userA — still returns Bob's signed profile. Second, "at most 30
seconds old" fails at the boundary: at exactly 30 seconds the session is
already expired and hasJoined returns 204 even for a name the session's
owner does own. -/
theorem hasJoined_counterexample :
    (joinHandler cxSecret 0 "1.2.3.4" [] cxJoinReq).1 = Response.noContent
    ∧ (alGet cxCacheAfterJoin "srv-1").map (fun s => s.accessToken.claims.userID)
        = some "userA"
    ∧ cxStore.userOwnsName "userA" "Bob" = false
    ∧ (hasJoinedHandler cxStore (5 * second) cxCacheAfterJoin "Bob" "srv-1" "").1
        = Response.json cxProfileBob.toJson
    ∧ cxStore.userOwnsName "userA" "Alice" = true
    ∧ (hasJoinedHandler cxStore (30 * second) cxCacheAfterJoin "Alice" "srv-1" "").1
        = Response.noContent :=
  ⟨rfl, rfl, rfl, rfl, rfl, rfl⟩

/-- Appending to a fixed string on the left is injective. -/
theorem string_append_cancel {s a b : String} (h : s ++ a = s ++ b) : a = b := by
  cases s with | mk sd =>
  cases a with | mk ad =>
  cases b with | mk bd =>
  have hd : sd ++ ad = sd ++ bd := congrArg String.data h
  exact congrArg String.mk (List.append_cancel_left hd)

/-- A host outside the warmed list is untouched by the warmup fold. -/
theorem warmup_fold_get_of_not_mem (f : String → Json) (hosts : List String)
    (rc : RespCache) (h : String) (hnm : h ∉ hosts) :
    alGet (hosts.foldl
        (fun acc host => alSet acc ("api_metadata_" ++ host) (f host)) rc)
      ("api_metadata_" ++ h) = alGet rc ("api_metadata_" ++ h) := by
  induction hosts generalizing rc with
  | nil => rfl
  | cons h0 rest ih =>
    simp only [List.foldl_cons]
    rw [ih _ (fun hmem => hnm (List.mem_cons_of_mem _ hmem))]
    refine alGet_alSet_ne rc _ _ _ (fun heq => hnm ?_)
    have hh : h0 = h := string_append_cancel heq
    rw [← hh]
    exact List.mem_cons_self h0 rest

/-- A warmed host's cache entry is the value computed for that host. -/
theorem warmup_fold_get_of_mem (f : String → Json) (hosts : List String)
    (rc : RespCache) (h : String) (hmem : h ∈ hosts) :
    alGet (hosts.foldl
        (fun acc host => alSet acc ("api_metadata_" ++ host) (f host)) rc)
      ("api_metadata_" ++ h) = some (f h) := by
  induction hosts generalizing rc with
  | nil => cases hmem
  | cons h0 rest ih =>
    simp only [List.foldl_cons]
    by_cases hr : h ∈ rest
    · exact ih _ hr
    · have hh0 : h = h0 := by
        rcases List.mem_cons.mp hmem with h1 | h2
        · exact h1
        · exact absurd h2 hr
      subst hh0
      rw [warmup_fold_get_of_not_mem _ _ _ _ hr, alGet_alSet_self]

/-- Evaluation of the metadata handler on a cache hit. -/
theorem getAPIMetadata_hit (cfg : Config) (linkURL : String → String → String)
    (store : Storage) (fs : FS) (rc : RespCache)
    (requestHost hostHeader : String) (body : Json)
    (h : alGet rc ("api_metadata_" ++ requestHost) = some body) :
    getAPIMetadata cfg linkURL store fs rc requestHost hostHeader
      = (Response.json body, rc) := by
  simp only [getAPIMetadata, h]

/-- Evaluation of the metadata handler on a cold cache with a loadable
public key and no Host header. -/
theorem getAPIMetadata_cold_ok (cfg : Config)
    (linkURL : String → String → String) (store : Storage) (fs : FS)
    (requestHost k : String)
    (hcold : coldKeySource cfg store fs = Except.ok k) :
    getAPIMetadata cfg linkURL store fs [] requestHost ""
      = (Response.json (buildMetadata cfg linkURL requestHost k).toJson,
         alSet [] ("api_metadata_" ++ requestHost)
           (buildMetadata cfg linkURL requestHost k).toJson) := by
  simp only [getAPIMetadata, hcold]
  rfl

/-- Evaluation of the metadata handler on a cold cache whose public key
cannot be loaded. -/
theorem getAPIMetadata_cold_err (cfg : Config)
    (linkURL : String → String → String) (store : Storage) (fs : FS)
    (requestHost hostHeader : String)
    (hcold : coldKeySource cfg store fs = Except.error ()) :
    getAPIMetadata cfg linkURL store fs [] requestHost hostHeader
      = (Response.error 500 "InternalServerError" "Failed to load public key",
         []) := by
  simp only [getAPIMetadata, hcold]
  rfl

/-- C4 (amended): when the key material loads successfully and both the
warmup key source and the cold-path key source yield the same key, the
response served from the cache precomputed by warmup is equal — hence,
under the deterministic serializer, byte-identical — to the response the
cold handler path produces; but when key loading fails the two paths
diverge (warmup caches a degraded body with an empty public key while
the cold path answers 500, as the counterexample shows). -/
theorem warm_cache_matches_cold (cfg : Config)
    (linkURL : String → String → String) (store : Storage) (fs : FS)
    (requestHost k : String)
    (hmem : requestHost ∈ commonHosts cfg)
    (hwarm : warmupKeySource cfg store fs = Except.ok k)
    (hcold : coldKeySource cfg store fs = Except.ok k) :
    (getAPIMetadata cfg linkURL store fs
        (warmupAPIMetadata cfg linkURL store fs []) requestHost "").1
      = (getAPIMetadata cfg linkURL store fs [] requestHost "").1 := by
  have h1 : alGet (warmupAPIMetadata cfg linkURL store fs [])
      ("api_metadata_" ++ requestHost)
      = some ((buildMetadata cfg linkURL requestHost
          (match warmupKeySource cfg store fs with
           | Except.ok kk => kk
           | Except.error _ => "")).toJson) :=
    warmup_fold_get_of_mem _ (commonHosts cfg) [] requestHost hmem
  rw [hwarm] at h1
  rw [getAPIMetadata_hit cfg linkURL store fs _ requestHost "" _ h1,
    getAPIMetadata_cold_ok cfg linkURL store fs requestHost k hcold]

/-- C4 witness: with a file-backed key that loads on both paths, the
warm response for a common host equals the cold response. -/
theorem warm_cache_matches_cold_witness :
    (getAPIMetadata cxCfg cxLinkURL cxStore
        [("keys/public.pem", { content := "PEMKEY", mode := 0o644 })]
        (warmupAPIMetadata cxCfg cxLinkURL cxStore
          [("keys/public.pem", { content := "PEMKEY", mode := 0o644 })] [])
        "localhost:8080" "").1
      = (getAPIMetadata cxCfg cxLinkURL cxStore
          [("keys/public.pem", { content := "PEMKEY", mode := 0o644 })] []
          "localhost:8080" "").1 :=
  warm_cache_matches_cold cxCfg cxLinkURL cxStore
    [("keys/public.pem", { content := "PEMKEY", mode := 0o644 })]
    "localhost:8080" "PEMKEY" (by simp [commonHosts]) rfl rfl

/-- C4 counterexample: when the public key cannot be loaded, warmup
caches a 200 body whose `signaturePublickey` is empty, while the cold
path answers a 500 error — the warm response is not byte-identical to
the cold one and the cold path's error behaviour is not preserved. -/
theorem cache_refinement_counterexample :
    (getAPIMetadata cxCfg cxLinkURL cxBadStore [] cxWarmRC
        "localhost:8080" "").1
      = Response.json (buildMetadata cxCfg cxLinkURL "localhost:8080" "").toJson
    ∧ (getAPIMetadata cxCfg cxLinkURL cxBadStore [] [] "localhost:8080" "").1
      = Response.error 500 "InternalServerError" "Failed to load public key"
    ∧ Response.json (buildMetadata cxCfg cxLinkURL "localhost:8080" "").toJson
      ≠ Response.error 500 "InternalServerError" "Failed to load public key" :=
  ⟨rfl, rfl, fun h => Response.noConfusion h⟩

/-- Evaluation of LoadOrGenerateKeyPair when generation is triggered:
both files are written with the fresh pair, each with mode 0600. -/
theorem loadOrGenerate_eval_gen (freshKey : Nat) (fs : FS)
    (privPath pubPath : String)
    (hcond : ¬((fsStat fs privPath && fsStat fs pubPath) = true)) :
    loadOrGenerateKeyPair freshKey fs privPath pubPath
      = (pemEncodeToMemory "PRIVATE KEY" (KeyDER.pkcs8 freshKey),
         pemEncodeToMemory "PUBLIC KEY" (KeyDER.pkix freshKey),
         alSet (alSet fs privPath
             { content := pemEncodeToMemory "PRIVATE KEY" (KeyDER.pkcs8 freshKey),
               mode := 0o600 })
           pubPath
           { content := pemEncodeToMemory "PUBLIC KEY" (KeyDER.pkix freshKey),
             mode := 0o600 }) := by
  simp only [loadOrGenerateKeyPair, if_neg hcond, generateRSAKeyPair,
    saveKeyToFile]

/-- C5 (amended): when the keypair is generated and persisted, the
private key is written as a PEM block of type PRIVATE KEY in PKCS#8
encoding with file mode 0600, and the public key as a PEM block of type
PUBLIC KEY in PKIX encoding, also with file mode 0600 (not 0644: both
writes go through the same `os.WriteFile(..., 0600)`). -/
theorem keypair_persistence (freshKey : Nat) (fs : FS)
    (privPath pubPath : String) (hne : privPath ≠ pubPath)
    (hgen : ¬(fsStat fs privPath = true ∧ fsStat fs pubPath = true)) :
    alGet (loadOrGenerateKeyPair freshKey fs privPath pubPath).2.2 privPath
        = some { content := pemEncodeToMemory "PRIVATE KEY" (KeyDER.pkcs8 freshKey),
                 mode := 0o600 }
    ∧ alGet (loadOrGenerateKeyPair freshKey fs privPath pubPath).2.2 pubPath
        = some { content := pemEncodeToMemory "PUBLIC KEY" (KeyDER.pkix freshKey),
                 mode := 0o600 } := by
  have hcond : ¬((fsStat fs privPath && fsStat fs pubPath) = true) := by
    rw [Bool.and_eq_true]; exact hgen
  rw [loadOrGenerate_eval_gen freshKey fs privPath pubPath hcond]
  exact ⟨by rw [alGet_alSet_ne _ _ _ _ (Ne.symm hne)]; exact alGet_alSet_self _ _ _,
    alGet_alSet_self _ _ _⟩

/-- C5 witness: generating into an empty file system writes the public
key file with mode 0600 and the PKIX PUBLIC KEY PEM content. -/
theorem keypair_persistence_witness :
    alGet (loadOrGenerateKeyPair 3 [] "priv.pem" "pub.pem").2.2 "pub.pem"
      = some { content := pemEncodeToMemory "PUBLIC KEY" (KeyDER.pkix 3),
               mode := 0o600 } :=
  (keypair_persistence 3 [] "priv.pem" "pub.pem" (by decide) (by decide)).2

/-- C5 counterexample: the public key file is persisted with mode 0600,
not 0644 as the claim states. -/
theorem public_key_mode_counterexample :
    (alGet (loadOrGenerateKeyPair 7 [] "keys/private.pem" "keys/public.pem").2.2
        "keys/public.pem").map FileEntry.mode = some 0o600
    ∧ (0o600 : Nat) ≠ 0o644 :=
  ⟨rfl, by decide⟩

/-- C9: when exactly one of the two key files exists,
LoadOrGenerateKeyPair neither loads nor preserves the existing file: it
returns a freshly generated pair and overwrites both paths with it, so a
pre-existing private key with different content is destroyed when only
its public-key file is missing. -/
theorem lone_keyfile_regenerates (freshKey : Nat) (fs : FS)
    (privPath pubPath : String) (hne : privPath ≠ pubPath)
    (hxor : fsStat fs privPath ≠ fsStat fs pubPath) :
    (loadOrGenerateKeyPair freshKey fs privPath pubPath).1
        = pemEncodeToMemory "PRIVATE KEY" (KeyDER.pkcs8 freshKey)
    ∧ (loadOrGenerateKeyPair freshKey fs privPath pubPath).2.1
        = pemEncodeToMemory "PUBLIC KEY" (KeyDER.pkix freshKey)
    ∧ (alGet (loadOrGenerateKeyPair freshKey fs privPath pubPath).2.2 privPath).map
          FileEntry.content
        = some (pemEncodeToMemory "PRIVATE KEY" (KeyDER.pkcs8 freshKey))
    ∧ (alGet (loadOrGenerateKeyPair freshKey fs privPath pubPath).2.2 pubPath).map
          FileEntry.content
        = some (pemEncodeToMemory "PUBLIC KEY" (KeyDER.pkix freshKey))
    ∧ ∀ e : FileEntry, alGet fs privPath = some e →
        e.content ≠ pemEncodeToMemory "PRIVATE KEY" (KeyDER.pkcs8 freshKey) →
        (alGet (loadOrGenerateKeyPair freshKey fs privPath pubPath).2.2 privPath).map
            FileEntry.content ≠ some e.content := by
  have hcond : ¬((fsStat fs privPath && fsStat fs pubPath) = true) := by
    rw [Bool.and_eq_true]
    intro h
    exact hxor (h.1.trans h.2.symm)
  rw [loadOrGenerate_eval_gen freshKey fs privPath pubPath hcond]
  have hpriv : alGet (alSet (alSet fs privPath
      { content := pemEncodeToMemory "PRIVATE KEY" (KeyDER.pkcs8 freshKey),
        mode := 0o600 }) pubPath
      { content := pemEncodeToMemory "PUBLIC KEY" (KeyDER.pkix freshKey),
        mode := 0o600 }) privPath
      = some { content := pemEncodeToMemory "PRIVATE KEY" (KeyDER.pkcs8 freshKey),
               mode := 0o600 } := by
    rw [alGet_alSet_ne _ _ _ _ (Ne.symm hne)]
    exact alGet_alSet_self _ _ _
  refine ⟨rfl, rfl, ?_, ?_, ?_⟩
  · rw [hpriv]; rfl
  · rw [alGet_alSet_self]; rfl
  · intro e _ hdiff
    rw [hpriv]
    intro hcontra
    exact hdiff (Option.some.inj hcontra).symm

/-- C9 witness: a file system holding only the private-key file is
regenerated, and the old content is gone from the private-key path. -/
theorem lone_keyfile_regenerates_witness :
    (alGet (loadOrGenerateKeyPair 5
        [("priv.pem", { content := "OLD PRIVATE KEY", mode := 0o600 })]
        "priv.pem" "pub.pem").2.2 "priv.pem").map FileEntry.content
      ≠ some "OLD PRIVATE KEY" :=
  (lone_keyfile_regenerates 5
      [("priv.pem", { content := "OLD PRIVATE KEY", mode := 0o600 })]
      "priv.pem" "pub.pem" (by decide) (by decide)).2.2.2.2
    { content := "OLD PRIVATE KEY", mode := 0o600 } rfl (by decide)

/-- Evaluation of the batch handler under the size ceiling with a
working store. -/
theorem searchMultipleProfiles_ok (store : Storage) (names : List String)
    (hlen : names.length ≤ 10) (hbf : store.batchFails = false) :
    searchMultipleProfiles store names
      = (Response.json (Json.arr
          ((names.filterMap store.getProfileByName).map profileEntryJson)),
         true) := by
  have hres : store.getProfilesByNames names
      = Except.ok (names.filterMap store.getProfileByName) := by
    simp [Storage.getProfilesByNames, hbf]
  simp only [searchMultipleProfiles, if_neg (by omega : ¬names.length > 10), hres]

/-- Evaluation of the batch handler above the size ceiling. -/
theorem searchMultipleProfiles_reject (store : Storage) (names : List String)
    (hlen : names.length > 10) :
    searchMultipleProfiles store names
      = (respondForbidden "Too many profiles requested", false) := by
  simp only [searchMultipleProfiles, if_pos hlen]

/-- C6: a batch request of more than 10 names is rejected with 403
ForbiddenOperationException before any store lookup (the flag records
that the store was not queried), while at most 10 names with a working
store yield 200 with the resolved `{id,name}` entries, never more than
10 of them. -/
theorem batch_profiles_spec (store : Storage) (names : List String) :
    (names.length > 10 →
      searchMultipleProfiles store names
        = (respondForbidden "Too many profiles requested", false))
    ∧ (names.length ≤ 10 → store.batchFails = false →
      searchMultipleProfiles store names
          = (Response.json (Json.arr
              ((names.filterMap store.getProfileByName).map profileEntryJson)),
             true)
        ∧ ((names.filterMap store.getProfileByName).map profileEntryJson).length
            ≤ 10) :=
  ⟨fun h => searchMultipleProfiles_reject store names h,
   fun hlen hbf =>
     ⟨searchMultipleProfiles_ok store names hlen hbf, by
       rw [List.length_map]
       exact le_trans (List.length_filterMap_le _ _) hlen⟩⟩

/-- C6 witness: two resolvable names out of two produce their entries;
eleven names are rejected without a store query. -/
theorem batch_profiles_spec_witness :
    searchMultipleProfiles cxStore ["Alice", "Nobody"]
        = (Response.json (Json.arr [profileEntryJson cxProfileAlice]), true)
    ∧ searchMultipleProfiles cxStore cx11Names
        = (respondForbidden "Too many profiles requested", false) :=
  ⟨((batch_profiles_spec cxStore ["Alice", "Nobody"]).2 (by decide) rfl).1,
   (batch_profiles_spec cxStore cx11Names).1 (by decide)⟩

/-- C10 (amended): for every batch request of at most 10 names whose
store lookup succeeds, if the names resolve to no profiles — in
particular when the input list is empty — the response is HTTP 200 with
the empty JSON array, which is not null. -/
theorem batch_empty_result (store : Storage) (names : List String)
    (hlen : names.length ≤ 10) (hbf : store.batchFails = false)
    (hres : names.filterMap store.getProfileByName = []) :
    (searchMultipleProfiles store names).1 = Response.json (Json.arr [])
    ∧ Json.arr [] ≠ Json.null := by
  constructor
  · rw [searchMultipleProfiles_ok store names hlen hbf, hres]
    rfl
  · exact fun h => Json.noConfusion h

/-- C10 witness: the empty batch request answers 200 with the empty
array. -/
theorem batch_empty_result_witness :
    (searchMultipleProfiles cxStore []).1 = Response.json (Json.arr []) :=
  (batch_empty_result cxStore [] (by decide) rfl rfl).1

/-- C10 counterexample: eleven names none of which resolves form a batch
request whose names resolve to no profiles, yet the response is the 403
error, not 200 with an empty array. -/
theorem batch_empty_error_counterexample :
    cx11Names.filterMap cxStore.getProfileByName = []
    ∧ (searchMultipleProfiles cxStore cx11Names).1
        = Response.error 403 "ForbiddenOperationException"
            "Too many profiles requested"
    ∧ (searchMultipleProfiles cxStore cx11Names).1 ≠ Response.json (Json.arr []) :=
  ⟨rfl, rfl, fun h => Response.noConfusion h⟩

/-- C7: for an existing profile UUID, unsigned=true answers the profile
with every signature blanked — the signature field is absent from each
serialized property — while unsigned=false answers the stored profile
unchanged: the same value bytes with the stored signature attached. -/
theorem unsigned_profile_spec (store : Storage) (uuid : String) (p : Profile)
    (hu : uuid ≠ "") (hp : store.getProfileByUUID uuid = some p) :
    getProfileByUUIDHandler store uuid "true"
        = Response.json (Profile.toJson (stripSignatures p))
    ∧ getProfileByUUIDHandler store uuid "false"
        = Response.json (Profile.toJson p)
    ∧ (stripSignatures p).properties.map (fun pr => pr.value)
        = p.properties.map (fun pr => pr.value)
    ∧ ∀ pr ∈ (stripSignatures p).properties,
        ProfileProperty.toJson pr
          = Json.obj [("name", Json.str pr.name), ("value", Json.str pr.value)] := by
  refine ⟨?_, ?_, ?_, ?_⟩
  · simp [getProfileByUUIDHandler, hu, hp, goParseBool]
  · simp [getProfileByUUIDHandler, hu, hp, goParseBool]
  · rw [stripSignatures, List.map_map]
    rfl
  · intro pr hpr
    rw [stripSignatures] at hpr
    obtain ⟨pr0, _, rfl⟩ := List.mem_map.mp hpr
    simp [ProfileProperty.toJson]

/-- C7 witness: the profile with a signed textures property comes back
stripped under unsigned=true and unchanged under unsigned=false. -/
theorem unsigned_profile_spec_witness :
    getProfileByUUIDHandler cxStore "b1" "true"
        = Response.json (Profile.toJson (stripSignatures cxProfileBob))
    ∧ getProfileByUUIDHandler cxStore "b1" "false"
        = Response.json (Profile.toJson cxProfileBob) := by
  have h := unsigned_profile_spec cxStore "b1" cxProfileBob (by decide) rfl
  exact ⟨h.1, h.2.1⟩

set_option maxRecDepth 8192 in
/-- C8: the password length limit is dead code. SanitizeInput truncates
the password to 255 characters before the `> 255` check runs, so a
256-character password is silently altered and login validation accepts
the request instead of rejecting it. -/
theorem overlong_password_accepted :
    overlongPassword.length = 256
    ∧ sanitizeInput overlongPassword ≠ overlongPassword
    ∧ validateLoginInput "a@b.co" overlongPassword = true :=
  ⟨rfl, by decide, rfl⟩

end Ygg
